import Mathlib

/-!
Verification development for the semtech-udp GWMP (Semtech UDP packet
forwarder protocol) crate.  The Rust source is shallowly embedded: bytes are
`Nat` values below 256, buffers are `List Nat`, machine integers are `Nat`/`Int`
with explicit `% 2 ^ w` where the source casts, `f32`/`f64` values are `ℚ`,
and a Rust panic (an out-of-range slice index) is modelled as `none` in an
`Option` result.  External library behaviour (`serde_json`, `str::from_utf8`)
is abstracted as decoder parameters; everything else follows the source.
-/

namespace SemtechUdp

/-- 8-byte gateway EUI-64 (`MacAddr8`, re-exported as `MacAddress`). -/
structure MacAddress where
  b0 : Nat
  b1 : Nat
  b2 : Nat
  b3 : Nat
  b4 : Nat
  b5 : Nat
  b6 : Nat
  b7 : Nat
  deriving DecidableEq, Repr

/-- `MacAddr8::as_bytes`. -/
def MacAddress.asBytes (m : MacAddress) : List Nat :=
  [m.b0, m.b1, m.b2, m.b3, m.b4, m.b5, m.b6, m.b7]

/-- Frame identifiers, `packet/mod.rs` (`PushData = 0` .. `TxAck = 5`). -/
inductive Identifier
  | pushData
  | pushAck
  | pullData
  | pullResp
  | pullAck
  | txAck
  deriving DecidableEq, Repr

/-- `num_enum::TryFromPrimitive` for `Identifier` (valid range `0..=5`). -/
def Identifier.tryFrom (n : Nat) : Option Identifier :=
  match n with
  | 0 => some .pushData
  | 1 => some .pushAck
  | 2 => some .pullData
  | 3 => some .pullResp
  | 4 => some .pullAck
  | 5 => some .txAck
  | _ => Option.none

/-- `Identifier as u8`. -/
def Identifier.toNat : Identifier → Nat
  | .pushData => 0
  | .pushAck => 1
  | .pullData => 2
  | .pullResp => 3
  | .pullAck => 4
  | .txAck => 5

/-- `types.rs` spreading factors accepted by the codec (SF5..SF12). -/
inductive SpreadingFactor
  | sf5 | sf6 | sf7 | sf8 | sf9 | sf10 | sf11 | sf12
  deriving DecidableEq, Repr

/-- `types.rs` bandwidths accepted by the codec. -/
inductive Bandwidth
  | bw7 | bw10 | bw15 | bw20 | bw31 | bw41 | bw62 | bw125 | bw250 | bw500
  deriving DecidableEq, Repr

/-- `DataRate(SpreadingFactor, Bandwidth)`. -/
structure DataRate where
  sf : SpreadingFactor
  bw : Bandwidth
  deriving DecidableEq, Repr

/-- LoRa coding rate as handled by `serialize_codr`/`deserialize_codr`. -/
inductive CodingRate
  | c4_5 | c4_6 | c4_7 | c4_8
  deriving DecidableEq, Repr

/-- `Modulation` (`"LORA"` or `"FSK"`). -/
inductive Modulation
  | LORA
  | FSK
  deriving DecidableEq, Repr

/-- `CRC` status (`Disabled = 0`, `OK = 1`, `Fail = -1`). -/
inductive CRC
  | disabled
  | ok
  | fail
  deriving DecidableEq, Repr

/-- `Tmst` from `packet/mod.rs`: the txpk timestamp sum type
(`Immediate` or a 32-bit numeric timestamp). -/
inductive Tmst
  | immediate
  | tmst (n : Nat)
  deriving DecidableEq, Repr

-- ## tx_ack.rs

/-- `tx_ack::Error`: the typed downlink outcomes. -/
inductive TxAckError
  | tooLate
  | tooEarly
  | collisionPacket
  | collisionBeacon
  | invalidTransmitFrequency
  | invalidTransmitPower (power : Option Int)
  | adjustedTransmitPower (power : Option Int) (tmst : Option Nat)
  | gpsUnlocked
  | sendLBT
  | sendFail
  deriving DecidableEq, Repr

/-- `tx_ack::ErrorField`: wire values tolerated in both `warn` and `error`. -/
inductive ErrorField
  | none
  | tooLate
  | tooEarly
  | collisionPacket
  | collisionBeacon
  | txFreq
  | txPower
  | gpsUnlocked
  | sendLBT
  | sendFail
  deriving DecidableEq, Repr

/-- `tx_ack::TxPkAckResult`: untagged `error` vs `warn { value }` alternative. -/
inductive TxPkAckResult
  | error (error : ErrorField)
  | warn (warn : ErrorField) (value : Option Int)
  deriving DecidableEq, Repr

/-- `tx_ack::TxPkAck`: optional `tmst` plus flattened result. -/
structure TxPkAck where
  tmst : Option Nat
  result : TxPkAckResult
  deriving DecidableEq, Repr

/-- `tx_ack::Data`. -/
structure TxAckData where
  txpk_ack : TxPkAck
  deriving DecidableEq, Repr

/-- `impl Default for tx_ack::Data`: no tmst, `error: NONE`. -/
def TxAckData.default : TxAckData :=
  ⟨⟨Option.none, .error .none⟩⟩

/-- `ErrorField::to_result`. -/
def ErrorField.to_result (e : ErrorField) (tmst : Option Nat) :
    Except TxAckError (Option Nat) :=
  match e with
  | .tooEarly => .error .tooEarly
  | .collisionPacket => .error .collisionPacket
  | .collisionBeacon => .error .collisionBeacon
  | .tooLate => .error .tooLate
  | .txFreq => .error .invalidTransmitFrequency
  | .txPower => .error (.invalidTransmitPower Option.none)
  | .gpsUnlocked => .error .gpsUnlocked
  | .sendLBT => .error .sendLBT
  | .sendFail => .error .sendFail
  | .none => .ok tmst

/-- `tx_ack::Data::get_result`: `warn: TX_POWER` is special-cased to
`AdjustedTransmitPower(value, tmst)`; everything else goes through
`to_result`. -/
def TxAckData.get_result (d : TxAckData) : Except TxAckError (Option Nat) :=
  match d.txpk_ack.result with
  | .error e => e.to_result d.txpk_ack.tmst
  | .warn w value =>
    match w with
    | .txPower => .error (.adjustedTransmitPower value d.txpk_ack.tmst)
    | _ => w.to_result d.txpk_ack.tmst

-- ## push_data (rxpk.rs and mod.rs)

/-- `RSig`: per-antenna signal record of a V2 rxpk.  `lsnr` is an `f32`,
modelled as `ℚ`. -/
structure RSig where
  ant : Nat
  chan : Nat
  rssic : Int
  rssis : Option Int
  lsnr : ℚ
  etime : Option String
  foff : Option Int
  ftstat : Option Nat
  ftver : Option Nat
  ftdelta : Option Int
  deriving DecidableEq, Repr

/-- `RxPkV1`: flat V1 rxpk shape. -/
structure RxPkV1 where
  chan : Nat
  codr : Option CodingRate
  data : List Nat
  datr : DataRate
  freq : ℚ
  lsnr : ℚ
  modu : Modulation
  rfch : Nat
  rssi : Int
  rssis : Option Int
  size : Nat
  stat : CRC
  tmst : Nat
  time : Option String
  deriving DecidableEq, Repr

/-- `RxPkV2`: V2 rxpk shape with an `rsig` vector. -/
structure RxPkV2 where
  aesk : Nat
  brd : Nat
  codr : Option CodingRate
  data : List Nat
  datr : DataRate
  freq : ℚ
  jver : Nat
  modu : String
  rsig : List RSig
  size : Nat
  stat : CRC
  tmst : Nat
  delayed : Option Bool
  tmms : Option Nat
  time : Option String
  deriving DecidableEq, Repr

/-- `RxPk`: untagged V1/V2 alternative. -/
inductive RxPk
  | v1 (pk : RxPkV1)
  | v2 (pk : RxPkV2)
  deriving DecidableEq, Repr

/-- Rust `as i32` on an `f32`: truncation toward zero, modelled on `ℚ`. -/
def truncQ (q : ℚ) : Int :=
  if 0 ≤ q then ⌊q⌋ else ⌈q⌉

/-- `RxPk::snr`: V1 returns `lsnr`; V2 folds over `rsig` from `-150.0`,
replacing the accumulator only when the candidate's integer-truncated
`lsnr` strictly exceeds the accumulator's integer truncation. -/
def RxPk.snr : RxPk → ℚ
  | .v1 pk => pk.lsnr
  | .v2 pk =>
    pk.rsig.foldl
      (fun mx x => if truncQ mx < truncQ x.lsnr then x.lsnr else mx) (-150)

/-- `RxPk::channel_rssi`: V1 returns `rssi`; V2 folds `cmp::max` over the
`rssic` values from `-150`. -/
def RxPk.channel_rssi : RxPk → Int
  | .v1 pk => pk.rssi
  | .v2 pk => pk.rsig.foldl (fun mx x => max mx x.rssic) (-150)

/-- `Stat`: gateway telemetry. -/
structure Stat where
  time : String
  lati : Option ℚ
  long : Option ℚ
  alti : Option Int
  rxnb : Nat
  rxok : Nat
  rxfw : Nat
  ackr : Option ℚ
  dwnb : Nat
  txnb : Nat
  temp : Option ℚ
  deriving DecidableEq, Repr

/-- `push_data::Data`: both fields optional. -/
structure PushDataData where
  rxpk : Option (List RxPk)
  stat : Option Stat
  deriving DecidableEq, Repr

-- ## pull_resp.rs

/-- `pull_resp::PhyData`. -/
structure PhyData where
  data : List Nat
  size : Nat
  deriving DecidableEq, Repr

/-- `pull_resp::TxPk` (the `tmst`/`tmms` fields carry the `Tmst` sum type). -/
structure TxPk where
  imme : Bool
  tmst : Option Tmst
  tmms : Option Tmst
  freq : ℚ
  rfch : Nat
  powe : Nat
  modu : Modulation
  datr : DataRate
  codr : CodingRate
  fdev : Option Nat
  ipol : Bool
  prea : Option Nat
  data : PhyData
  ncrc : Option Bool
  deriving DecidableEq, Repr

/-- `pull_resp::Data`. -/
structure PullRespData where
  txpk : TxPk
  deriving DecidableEq, Repr

-- ## packet structs and the Packet sum

/-- `push_data::Packet`. -/
structure PushDataPacket where
  random_token : Nat
  gateway_mac : MacAddress
  data : PushDataData
  deriving DecidableEq, Repr

/-- `pull_data::Packet`. -/
structure PullDataPacket where
  random_token : Nat
  gateway_mac : MacAddress
  deriving DecidableEq, Repr

/-- `tx_ack::Packet`. -/
structure TxAckPacket where
  random_token : Nat
  gateway_mac : MacAddress
  data : TxAckData
  deriving DecidableEq, Repr

/-- `push_ack::Packet`. -/
structure PushAckPacket where
  random_token : Nat
  deriving DecidableEq, Repr

/-- `pull_ack::Packet`. -/
structure PullAckPacket where
  random_token : Nat
  deriving DecidableEq, Repr

/-- `pull_resp::Packet`. -/
structure PullRespPacket where
  random_token : Nat
  data : PullRespData
  deriving DecidableEq, Repr

/-- `Up`: gateway-to-server frames. -/
inductive Up
  | pushData (p : PushDataPacket)
  | pullData (p : PullDataPacket)
  | txAck (p : TxAckPacket)
  deriving DecidableEq, Repr

/-- `Down`: server-to-gateway frames. -/
inductive Down
  | pushAck (p : PushAckPacket)
  | pullAck (p : PullAckPacket)
  | pullResp (p : PullRespPacket)
  deriving DecidableEq, Repr

/-- `Packet`: the frame sum. -/
inductive Packet
  | up (p : Up)
  | down (p : Down)
  deriving DecidableEq, Repr

/-- `Up::set_gateway_mac`. -/
def Up.set_gateway_mac (up : Up) (mac : MacAddress) : Up :=
  match up with
  | .pushData p => .pushData { p with gateway_mac := mac }
  | .pullData p => .pullData { p with gateway_mac := mac }
  | .txAck p => .txAck { p with gateway_mac := mac }

/-- Observer: the `random_token` of an uplink frame. -/
def Up.tokenOf : Up → Nat
  | .pushData p => p.random_token
  | .pullData p => p.random_token
  | .txAck p => p.random_token

/-- Observer: the `gateway_mac` of an uplink frame. -/
def Up.macOf : Up → MacAddress
  | .pushData p => p.gateway_mac
  | .pullData p => p.gateway_mac
  | .txAck p => p.gateway_mac

/-- `ParseError` as constructed by `packet/parser.rs`.  The JSON payload of
`InvalidJson` (raw text and serde cause) is not tracked. -/
inductive ParseError
  | invalidPacketLength (got : Nat) (need : Nat)
  | invalidProtocolVersion (got : Nat)
  | invalidIdentifier (got : Nat)
  | utf8
  | invalidJson (identifier : Identifier)
  | unexpectedDownlink (down : Down)
  | unexpectedUplink (up : Up)
  deriving DecidableEq, Repr

-- ## parser.rs

def PROTOCOL_VERSION : Nat := 2
def PROTOCOL_VERSION_INDEX : Nat := 0
def IDENTIFIER_INDEX : Nat := 3
def PREFIX_LEN : Nat := IDENTIFIER_INDEX + 1
def PACKET_PAYLOAD_START : Nat := 8
def GATEWAY_MAC_LEN : Nat := 8

/-- `random_token(buffer)`: `(buffer[1] as u16) << 8 | buffer[2] as u16`. -/
def randomToken (buffer : List Nat) : Nat :=
  (buffer.getD 1 0) <<< 8 ||| buffer.getD 2 0

/-- `parser::gateway_mac`. -/
def gatewayMacOfBuffer (buffer : List Nat) : Except ParseError MacAddress :=
  if buffer.length < GATEWAY_MAC_LEN then
    .error (.invalidPacketLength buffer.length 8)
  else
    .ok ⟨buffer.getD 0 0, buffer.getD 1 0, buffer.getD 2 0, buffer.getD 3 0,
         buffer.getD 4 0, buffer.getD 5 0, buffer.getD 6 0, buffer.getD 7 0⟩

/-- `parser::terminate`: index of the end of the JSON body, dropping one
trailing `0x00` byte if present. -/
def terminate (buf : List Nat) : Nat :=
  if buf.isEmpty then 0
  else if buf.getD (buf.length - 1) 0 = 0 then buf.length - 1
  else buf.length

/-- Rust slice `&buf[s..e]`.  A `none` result models the Rust panic raised
when `s > e` or `e > buf.len()`. -/
def sliceRange (buf : List Nat) (s e : Nat) : Option (List Nat) :=
  if s ≤ e ∧ e ≤ buf.length then some ((buf.drop s).take (e - s)) else Option.none

/-- The `str::from_utf8` + `serde_json::from_str` decoding of each JSON body.
These are external-library calls, so `parse` is parameterized by them; a
decoder maps the raw body bytes to data or to the `Utf8`/`InvalidJson`
error it would produce. -/
structure Decoders where
  pushData : List Nat → Except ParseError PushDataData
  txAck : List Nat → Except ParseError TxAckData
  pullResp : List Nat → Except ParseError PullRespData

/-- `Packet::parse` from `parser.rs`.  Outer `none` models a panic; the inner
`Except` is the `Result<Packet, ParseError>` of the source. -/
def Packet.parse (d : Decoders) (buffer : List Nat) :
    Option (Except ParseError Packet) :=
  if buffer.length < PREFIX_LEN then
    some (.error (.invalidPacketLength buffer.length PREFIX_LEN))
  else
    let protocol_version := buffer.getD PROTOCOL_VERSION_INDEX 0
    if protocol_version ≠ PROTOCOL_VERSION then
      some (.error (.invalidProtocolVersion protocol_version))
    else
      let frame_identifier := buffer.getD IDENTIFIER_INDEX 0
      match Identifier.tryFrom frame_identifier with
      | Option.none => some (.error (.invalidIdentifier frame_identifier))
      | some id =>
        let random_token := randomToken buffer
        let buffer := buffer.drop PREFIX_LEN
        match id with
        | .pullData =>
          match gatewayMacOfBuffer buffer with
          | .error e => some (.error e)
          | .ok gateway_mac =>
            some (.ok (.up (.pullData ⟨random_token, gateway_mac⟩)))
        | .pushData =>
          match gatewayMacOfBuffer buffer with
          | .error e => some (.error e)
          | .ok gateway_mac =>
            match sliceRange buffer PACKET_PAYLOAD_START (terminate buffer) with
            | Option.none => Option.none
            | some body =>
              match d.pushData body with
              | .error e => some (.error e)
              | .ok data =>
                some (.ok (.up (.pushData ⟨random_token, gateway_mac, data⟩)))
        | .txAck =>
          match gatewayMacOfBuffer buffer with
          | .error e => some (.error e)
          | .ok gateway_mac =>
            if PACKET_PAYLOAD_START < buffer.length then
              if buffer.length = PACKET_PAYLOAD_START + 1
                  ∧ buffer.getD PACKET_PAYLOAD_START 0 = 0 then
                some (.ok (.up (.txAck ⟨random_token, gateway_mac, TxAckData.default⟩)))
              else
                match sliceRange buffer PACKET_PAYLOAD_START (terminate buffer) with
                | Option.none => Option.none
                | some body =>
                  match d.txAck body with
                  | .error e => some (.error e)
                  | .ok data =>
                    some (.ok (.up (.txAck ⟨random_token, gateway_mac, data⟩)))
            else
              some (.ok (.up (.txAck ⟨random_token, gateway_mac, TxAckData.default⟩)))
        | .pushAck => some (.ok (.down (.pushAck ⟨random_token⟩)))
        | .pullAck => some (.ok (.down (.pullAck ⟨random_token⟩)))
        | .pullResp =>
          match sliceRange buffer 0 (terminate buffer) with
          | Option.none => Option.none
          | some body =>
            match d.pullResp body with
            | .error e => some (.error e)
            | .ok data => some (.ok (.down (.pullResp ⟨random_token, data⟩)))

/-- `write_preamble`: protocol version, then the token big-endian. -/
def writePreamble (token : Nat) : List Nat :=
  [PROTOCOL_VERSION, (token >>> 8) % 256, token % 256]

/-- `simple_up_packet!` serialization of `pull_data::Packet`: preamble,
identifier byte, gateway mac.  The returned list is the bytes written; the
cursor position reported by the source equals its length. -/
def PullDataPacket.serialize (p : PullDataPacket) : List Nat :=
  writePreamble p.random_token ++ [Identifier.pullData.toNat] ++ p.gateway_mac.asBytes

/-- A concrete decoder assembly (used only to instantiate witness
statements); every body is rejected as non-UTF-8. -/
def nullDecoders : Decoders :=
  ⟨fun _ => .error .utf8, fun _ => .error .utf8, fun _ => .error .utf8⟩

-- ## serde_json value model, for the custom `Tmst` deserializer

/-- `serde_json::Number`: an unsigned 64-bit integer, a negative signed
integer, or a floating-point number (modelled as `ℚ`). -/
inductive JsonNumber
  | posInt (n : Nat)
  | negInt (i : Int)
  | float (q : ℚ)
  deriving DecidableEq, Repr

/-- `serde_json::Number::as_u64`: only the unsigned-integer representation
succeeds. -/
def JsonNumber.as_u64 : JsonNumber → Option Nat
  | .posInt n => some n
  | _ => Option.none

/-- `serde_json::Value`. -/
inductive JsonValue
  | null
  | bool (b : Bool)
  | num (n : JsonNumber)
  | str (s : String)
  | arr (xs : List JsonValue)
  | obj (fields : List (String × JsonValue))

/-- `impl Deserialize for Tmst` from `packet/mod.rs`: a string must be
exactly `"immediate"`; a number must be an integer representable as `u64`
and strictly below `2 ^ 32`; everything else errors. -/
def Tmst.deserialize (value : JsonValue) : Except String Tmst :=
  match value with
  | .str s =>
    if s = "immediate" then .ok .immediate
    else .error "invalid string for tmst field"
  | .num n =>
    match n.as_u64 with
    | some v =>
      if v < 2 ^ 32 then .ok (.tmst v)
      else .error "tmst field must be a 32-bit number. it appears to be larger"
    | Option.none => .error "when tmst field is a number, it must be an integer"
  | _ => .error "tmst field must be string or number"

-- ## server_runtime/mod.rs

/-- Socket addresses are opaque identifiers. -/
abbrev SocketAddr := Nat

/-- Identifier for a `oneshot::Sender<TxAck>` handed to a pending downlink. -/
abbrev OneshotId := Nat

/-- `server_runtime::Client`: one connection-table entry.  `SystemTime`
values are modelled as `Nat` instants. -/
structure Client where
  addr : SocketAddr
  last_seen : Nat
  deriving DecidableEq, Repr

/-- `Client::new` (records the current instant). -/
def Client.new (now : Nat) (addr : SocketAddr) : Client := ⟨addr, now⟩

/-- `Client::update_addr`: replaces the address and refreshes `last_seen`. -/
def Client.update_addr (_c : Client) (now : Nat) (new_addr : SocketAddr) : Client :=
  ⟨new_addr, now⟩

/-- `Client::seen`: refreshes `last_seen`. -/
def Client.seen (c : Client) (now : Nat) : Client := ⟨c.addr, now⟩

/-- `server_runtime::InternalEvent`. -/
inductive InternalEvent
  | downlink (packet : PullRespPacket) (mac : MacAddress) (ackSender : OneshotId)
  | packetBySocket (packet : Packet) (addr : SocketAddr)
  | client (mac : MacAddress) (addr : SocketAddr)
  | packetReceived (rxpk : RxPk) (mac : MacAddress)
  | statReceived (stat : Stat) (mac : MacAddress)
  | unableToParseUdpFrame (err : ParseError) (bytes : List Nat)
  | ackReceived (txack : TxAckPacket)
  | checkCache
  | failedSend (packet : PullRespPacket) (mac : MacAddress)
  | successSend (token : Nat) (ackSender : OneshotId)
  deriving DecidableEq, Repr

/-- `server_runtime::Event` (application-visible). -/
inductive Event
  | packetReceived (rxpk : RxPk) (mac : MacAddress)
  | statReceived (stat : Stat) (mac : MacAddress)
  | newClient (mac : MacAddress) (addr : SocketAddr)
  | updateClient (mac : MacAddress) (addr : SocketAddr)
  | unableToParseUdpFrame (err : ParseError) (bytes : List Nat)
  | noClientWithMac (packet : PullRespPacket) (mac : MacAddress)
  | clientDisconnected (mac : MacAddress) (addr : SocketAddr)
  deriving DecidableEq, Repr

/-- Side effects of one `Internal::run` iteration that leave the event loop:
a spawned `send_to` for a downlink, an in-line ACK `send_to`, or the
fulfilment of a pending downlink's one-shot channel. -/
inductive Effect
  | spawnSendTo (packet : PullRespPacket) (mac : MacAddress) (addr : SocketAddr)
      (ackSender : OneshotId)
  | sendBySocket (packet : Packet) (addr : SocketAddr)
  | fulfil (ackSender : OneshotId) (txack : TxAckPacket)
  deriving DecidableEq, Repr

/-- `server_runtime::Error`, restricted to the variants the embedded event
loop can produce (`LastSeen` is returned when `duration_since` fails). -/
inductive RtError
  | lastSeen (last_seen : Nat) (now : Nat)
  deriving DecidableEq, Repr

/-- The mutable state owned by the `Internal` task: the `HashMap`s are
modelled as association lists (key-ordered by insertion). -/
structure InternalState where
  clients : List (MacAddress × Client)
  downlink_senders : List (Nat × OneshotId)
  disconnect_threshold : Option Nat
  deriving DecidableEq, Repr

/-- `HashMap::get` on the clients table. -/
def lookupClient : List (MacAddress × Client) → MacAddress → Option Client
  | [], _ => Option.none
  | (k, v) :: rest, mac => if k = mac then some v else lookupClient rest mac

/-- `HashMap::insert` on the clients table (replace in place, else append);
also models in-place mutation through `get_mut`. -/
def insertClient : List (MacAddress × Client) → MacAddress → Client →
    List (MacAddress × Client)
  | [], mac, c => [(mac, c)]
  | (k, v) :: rest, mac, c =>
    if k = mac then (mac, c) :: rest else (k, v) :: insertClient rest mac c

/-- `HashMap::remove` on the clients table. -/
def removeClient : List (MacAddress × Client) → MacAddress →
    List (MacAddress × Client)
  | [], _ => []
  | (k, v) :: rest, mac =>
    if k = mac then rest else (k, v) :: removeClient rest mac

/-- `HashMap::get`/`remove`/`insert` on the pending-downlink table. -/
def lookupToken : List (Nat × OneshotId) → Nat → Option OneshotId
  | [], _ => Option.none
  | (k, v) :: rest, t => if k = t then some v else lookupToken rest t

def removeToken : List (Nat × OneshotId) → Nat → List (Nat × OneshotId)
  | [], _ => []
  | (k, v) :: rest, t => if k = t then rest else (k, v) :: removeToken rest t

def insertToken : List (Nat × OneshotId) → Nat → OneshotId →
    List (Nat × OneshotId)
  | [], t, s => [(t, s)]
  | (k, v) :: rest, t, s =>
    if k = t then (t, s) :: rest else (k, v) :: insertToken rest t s

/-- The `CheckCache` sweep over a snapshot of the clients table:
`duration_since` fails when an entry's `last_seen` is in the future;
entries older than the threshold are removed and reported. -/
def sweepCache (now threshold : Nat) :
    List (MacAddress × Client) → InternalState →
    Except RtError (InternalState × List Event)
  | [], st => .ok (st, [])
  | (mac, client) :: rest, st =>
    if now < client.last_seen then .error (.lastSeen client.last_seen now)
    else if threshold < now - client.last_seen then
      match sweepCache now threshold rest
          { st with clients := removeClient st.clients mac } with
      | .error e => .error e
      | .ok (st', evs) => .ok (st', .clientDisconnected mac client.addr :: evs)
    else sweepCache now threshold rest st

/-- One iteration of `Internal::run`: dispatch on the received internal
event, returning the new state, the application events sent, and the socket
side effects. -/
def internalStep (now : Nat) (st : InternalState) (ev : InternalEvent) :
    Except RtError (InternalState × List Event × List Effect) :=
  match ev with
  | .checkCache =>
    match st.disconnect_threshold with
    | some threshold =>
      match sweepCache now threshold st.clients st with
      | .error e => .error e
      | .ok (st', evs) => .ok (st', evs, [])
    | Option.none => .ok (st, [], [])
  | .unableToParseUdpFrame e frame => .ok (st, [.unableToParseUdpFrame e frame], [])
  | .packetReceived rxpk mac => .ok (st, [.packetReceived rxpk mac], [])
  | .statReceived stat mac => .ok (st, [.statReceived stat mac], [])
  | .downlink packet mac ackSender =>
    match lookupClient st.clients mac with
    | some client => .ok (st, [], [.spawnSendTo packet mac client.addr ackSender])
    | Option.none => .ok (st, [.noClientWithMac packet mac], [])
  | .ackReceived txack =>
    match lookupToken st.downlink_senders txack.random_token with
    | some sender =>
      .ok ({ st with downlink_senders := removeToken st.downlink_senders txack.random_token },
           [], [.fulfil sender txack])
    | Option.none => .ok (st, [], [])
  | .packetBySocket packet addr => .ok (st, [], [.sendBySocket packet addr])
  | .client mac addr =>
    match lookupClient st.clients mac with
    | some client =>
      if client.addr ≠ addr then
        .ok ({ st with clients := insertClient st.clients mac (client.update_addr now addr) },
             [.updateClient mac addr], [])
      else
        .ok ({ st with clients := insertClient st.clients mac (client.seen now) }, [], [])
    | Option.none =>
      .ok ({ st with clients := insertClient st.clients mac (Client.new now addr) },
           [.newClient mac addr], [])
  | .successSend token ackSender =>
    .ok ({ st with downlink_senders := insertToken st.downlink_senders token ackSender }, [], [])
  | .failedSend packet mac =>
    .ok ({ st with clients := removeClient st.clients mac },
         [.noClientWithMac packet mac], [])

/-- Process a list of internal events in order (the `Internal` loop). -/
def internalSteps (now : Nat) (st : InternalState) :
    List InternalEvent → Except RtError (InternalState × List Event × List Effect)
  | [] => .ok (st, [], [])
  | ev :: rest =>
    match internalStep now st ev with
    | .error e => .error e
    | .ok (st', evs, effs) =>
      match internalSteps now st' rest with
      | .error e => .error e
      | .ok (st'', evs', effs') => .ok (st'', evs ++ evs', effs ++ effs')

/-- `pull_data::Packet::into_ack`. -/
def PullDataPacket.into_ack (p : PullDataPacket) : PullAckPacket :=
  ⟨p.random_token⟩

/-- `push_data::Packet::into_ack`. -/
def PushDataPacket.into_ack (p : PushDataPacket) : PushAckPacket :=
  ⟨p.random_token⟩

/-- The internal events `UdpRx::run` emits for one parsed uplink datagram
from source address `src`, in emission order. -/
def udpRxEvents (up : Up) (src : SocketAddr) : List InternalEvent :=
  match up with
  | .pullData pull_data =>
    [.client pull_data.gateway_mac src,
     .packetBySocket (.down (.pullAck pull_data.into_ack)) src]
  | .txAck txack => [.ackReceived txack]
  | .pushData push_data =>
    (match push_data.data.rxpk with
     | some rxpk => rxpk.map (fun packet => InternalEvent.packetReceived packet push_data.gateway_mac)
     | Option.none => [])
    ++ (match push_data.data.stat with
        | some stat => [InternalEvent.statReceived stat push_data.gateway_mac]
        | Option.none => [])
    ++ [.packetBySocket (.down (.pushAck push_data.into_ack)) src]

/-- End-to-end handling of one uplink datagram: `UdpRx` emits the internal
events, `Internal` consumes them in order at instant `now`. -/
def processUplink (now : Nat) (st : InternalState) (up : Up) (src : SocketAddr) :
    Except RtError (InternalState × List Event × List Effect) :=
  internalSteps now st (udpRxEvents up src)

-- ## server_runtime downlink dispatch

/-- `server_runtime::Error` variants observable by a `dispatch` caller. -/
inductive ServerError
  | ackError (e : TxAckError)
  | sendTimeout
  | dispatchWithNoSendPacket
  | unknownMac
  | internalQueueClosedOrFull
  deriving DecidableEq, Repr

/-- `server_runtime::Downlink`: the single-use downlink handle (the cloned
internal-queue sender is implicit). -/
structure Downlink where
  mac : MacAddress
  packet : Option PullRespPacket
  deriving DecidableEq, Repr

/-- `ClientTx::prepare_downlink`: the fresh `rand::thread_rng().gen()` token
is passed explicitly. -/
def prepareDownlink (freshToken : Nat) (txpk : Option TxPk) (mac : MacAddress) :
    Downlink :=
  ⟨mac, txpk.map (fun t => ⟨freshToken, ⟨t⟩⟩)⟩

/-- `Downlink::set_packet`. -/
def Downlink.set_packet (d : Downlink) (freshToken : Nat) (txpk : TxPk) : Downlink :=
  ⟨d.mac, some ⟨freshToken, ⟨txpk⟩⟩⟩

/-- `Downlink::just_dispatch`, up to the point where the `Downlink` internal
event is placed on the queue: with a packet it emits that event (and then
awaits the one-shot ACK, not modelled here); without one it returns
`DispatchWithNoSendPacket`. -/
def Downlink.just_dispatch (d : Downlink) (ackSender : OneshotId) :
    Except ServerError InternalEvent :=
  match d.packet with
  | some packet => .ok (.downlink packet d.mac ackSender)
  | Option.none => .error .dispatchWithNoSendPacket

/-- `Downlink::dispatch`: both arms delegate to `just_dispatch`; the timer
of the `Some duration` arm cannot fire before the immediate
no-packet error is produced. -/
def Downlink.dispatch (d : Downlink) (timeoutDuration : Option Nat)
    (ackSender : OneshotId) : Except ServerError InternalEvent :=
  match timeoutDuration with
  | some _ => d.just_dispatch ackSender
  | Option.none => d.just_dispatch ackSender

-- ## client_runtime/mod.rs (the Tx writer task)

/-- The per-frame stamping of `client_runtime::Tx::run`: every uplink gets
the configured gateway mac via `set_gateway_mac`; `PushData` and `PullData`
get the fresh `rand::random()` token, `TxAck` is left as-is. -/
def txStampUplink (mac : MacAddress) (freshToken : Nat) (up : Up) : Up :=
  let up := up.set_gateway_mac mac
  match up with
  | .pushData p => .pushData { p with random_token := freshToken }
  | .pullData p => .pullData { p with random_token := freshToken }
  | .txAck p => .txAck p

-- ## Shared concrete values for witnesses and counterexamples

/-- A concrete gateway mac. -/
def macA : MacAddress := ⟨0xAA, 0x55, 0x5A, 0x01, 0x02, 0x03, 0x04, 0x05⟩

/-- A second concrete gateway mac. -/
def macB : MacAddress := ⟨1, 2, 3, 4, 5, 6, 7, 8⟩

/-- An empty internal state with the default 60 s disconnect threshold. -/
def stEmpty : InternalState := ⟨[], [], some 60⟩

/-- A concrete antenna record with `lsnr = 2.1`. -/
def rsigA : RSig :=
  ⟨0, 7, -103, Option.none, 21/10, Option.none, Option.none, Option.none,
   Option.none, Option.none⟩

/-- A concrete antenna record with `lsnr = 2.9`, `rssic = -90`. -/
def rsigB : RSig :=
  ⟨1, 7, -90, Option.none, 29/10, Option.none, Option.none, Option.none,
   Option.none, Option.none⟩

/-- A concrete V2 rxpk carrying the two antenna records above. -/
def pkV2 : RxPkV2 :=
  ⟨0, 0, some .c4_5, [], ⟨.sf12, .bw125⟩, 8685/10, 2, "LORA", [rsigA, rsigB],
   29, .ok, 445296860, Option.none, Option.none, Option.none⟩

-- # Theorems

/-- `Identifier::try_from` fails on every byte above 5. -/
theorem identifierTryFromLarge (n : Nat) (h : 5 < n) :
    Identifier.tryFrom n = Option.none := by
  match n with
  | 0 | 1 | 2 | 3 | 4 | 5 => omega
  | m + 6 => rfl

/-- C1: the claim states `Packet::parse` never panics, in particular on a
PushData frame whose body after the 12-byte header is empty and whose
gateway mac ends in `0x00`.  Evaluating the embedded parser at exactly that
input (`02 00 00 00` + mac `00…00`, 12 bytes) reaches the slice
`&buffer[8..7]`, whose bounds check fails: the model returns `none`, i.e.
the source panics instead of returning a Frame or a ParseError. -/
theorem c1_parse_panics_on_empty_pushdata_null_mac (d : Decoders) :
    Packet.parse d [2, 0, 0, 0, 0, 0, 0, 0, 0, 0, 0, 0] = Option.none := rfl

/-- C2: the parse prefix checks run in order: a buffer shorter than 4 bytes
yields `InvalidPacketLength` (whatever its version byte), then a version
byte other than 2 yields `InvalidProtocolVersion`, then an identifier byte
outside `0..=5` yields `InvalidIdentifier`. -/
theorem c2_parse_error_precedence (d : Decoders) (buffer : List Nat) :
    (buffer.length < 4 →
      Packet.parse d buffer = some (.error (.invalidPacketLength buffer.length 4)))
  ∧ (4 ≤ buffer.length → buffer.getD 0 0 ≠ 2 →
      Packet.parse d buffer = some (.error (.invalidProtocolVersion (buffer.getD 0 0))))
  ∧ (4 ≤ buffer.length → buffer.getD 0 0 = 2 → 5 < buffer.getD 3 0 →
      Packet.parse d buffer = some (.error (.invalidIdentifier (buffer.getD 3 0)))) := by
  refine ⟨fun h => ?_, fun h1 h2 => ?_, fun h1 h2 h3 => ?_⟩
  · simp [Packet.parse, PREFIX_LEN, IDENTIFIER_INDEX, h]
  · simp only [List.getD, List.get?_eq_getElem?] at h2
    simp [Packet.parse, PREFIX_LEN, IDENTIFIER_INDEX, PROTOCOL_VERSION_INDEX,
      PROTOCOL_VERSION, Nat.not_lt.mpr h1, h2]
  · simp only [List.getD, List.get?_eq_getElem?] at h2 h3
    simp [Packet.parse, PREFIX_LEN, IDENTIFIER_INDEX, PROTOCOL_VERSION_INDEX,
      PROTOCOL_VERSION, Nat.not_lt.mpr h1, h2, identifierTryFromLarge _ h3]

/-- C2 witness: a 3-byte buffer with a wrong version byte still yields
`InvalidPacketLength`; a 4-byte wrong-version buffer yields
`InvalidProtocolVersion`; identifier byte 9 yields `InvalidIdentifier`. -/
theorem c2_parse_error_precedence_witness :
    Packet.parse nullDecoders [7, 0, 0] = some (.error (.invalidPacketLength 3 4))
  ∧ Packet.parse nullDecoders [7, 0, 0, 0] = some (.error (.invalidProtocolVersion 7))
  ∧ Packet.parse nullDecoders [2, 0, 0, 9] = some (.error (.invalidIdentifier 9)) :=
  ⟨(c2_parse_error_precedence nullDecoders [7, 0, 0]).1 (by decide),
   (c2_parse_error_precedence nullDecoders [7, 0, 0, 0]).2.1 (by decide) (by decide),
   (c2_parse_error_precedence nullDecoders [2, 0, 0, 9]).2.2 (by decide) (by decide)
     (by decide)⟩

/-- C3: the 12 bytes `02 9F 92 02 AA 55 5A 01 02 03 04 05` parse to a
PullData frame with token `0x9F92` and mac `AA:55:5A:01:02:03:04:05`, and
serializing that frame writes back exactly those 12 bytes (12 bytes
written). -/
theorem c3_pulldata_roundtrip (d : Decoders) :
    Packet.parse d [0x02, 0x9F, 0x92, 0x02, 0xAA, 0x55, 0x5A, 0x01, 0x02, 0x03, 0x04, 0x05]
      = some (.ok (.up (.pullData ⟨0x9F92, macA⟩)))
  ∧ PullDataPacket.serialize ⟨0x9F92, macA⟩
      = [0x02, 0x9F, 0x92, 0x02, 0xAA, 0x55, 0x5A, 0x01, 0x02, 0x03, 0x04, 0x05]
  ∧ (PullDataPacket.serialize ⟨0x9F92, macA⟩).length = 12 := by
  refine ⟨?_, ?_, ?_⟩ <;> rfl

/-- C4: TxAck result decoding.  A TxAck frame parsed with an absent body or
with the single byte `0x00` carries the default data; `get_result` maps the
default and `error: NONE` (with any tmst) to `Ok tmst`, `warn: TX_POWER`
with value `N` to `AdjustedTransmitPower(N, tmst)`, `error: TX_POWER` to
`InvalidTransmitPower(None)`, and every other error value to its matching
typed error. -/
theorem c4_txack_result_decoding (d : Decoders) :
    (∀ b1 b2 m0 m1 m2 m3 m4 m5 m6 m7 : Nat,
      Packet.parse d [2, b1, b2, 5, m0, m1, m2, m3, m4, m5, m6, m7]
        = some (.ok (.up (.txAck ⟨b1 <<< 8 ||| b2,
            ⟨m0, m1, m2, m3, m4, m5, m6, m7⟩, TxAckData.default⟩))))
  ∧ (∀ b1 b2 m0 m1 m2 m3 m4 m5 m6 m7 : Nat,
      Packet.parse d [2, b1, b2, 5, m0, m1, m2, m3, m4, m5, m6, m7, 0]
        = some (.ok (.up (.txAck ⟨b1 <<< 8 ||| b2,
            ⟨m0, m1, m2, m3, m4, m5, m6, m7⟩, TxAckData.default⟩))))
  ∧ TxAckData.get_result TxAckData.default = .ok Option.none
  ∧ (∀ tmst, TxAckData.get_result ⟨⟨tmst, .error .none⟩⟩ = .ok tmst)
  ∧ (∀ tmst value, TxAckData.get_result ⟨⟨tmst, .warn .txPower value⟩⟩
      = .error (.adjustedTransmitPower value tmst))
  ∧ (∀ tmst, TxAckData.get_result ⟨⟨tmst, .error .txPower⟩⟩
      = .error (.invalidTransmitPower Option.none))
  ∧ (∀ tmst, TxAckData.get_result ⟨⟨tmst, .error .tooLate⟩⟩ = .error .tooLate)
  ∧ (∀ tmst, TxAckData.get_result ⟨⟨tmst, .error .tooEarly⟩⟩ = .error .tooEarly)
  ∧ (∀ tmst, TxAckData.get_result ⟨⟨tmst, .error .collisionPacket⟩⟩
      = .error .collisionPacket)
  ∧ (∀ tmst, TxAckData.get_result ⟨⟨tmst, .error .collisionBeacon⟩⟩
      = .error .collisionBeacon)
  ∧ (∀ tmst, TxAckData.get_result ⟨⟨tmst, .error .txFreq⟩⟩
      = .error .invalidTransmitFrequency)
  ∧ (∀ tmst, TxAckData.get_result ⟨⟨tmst, .error .gpsUnlocked⟩⟩ = .error .gpsUnlocked)
  ∧ (∀ tmst, TxAckData.get_result ⟨⟨tmst, .error .sendLBT⟩⟩ = .error .sendLBT)
  ∧ (∀ tmst, TxAckData.get_result ⟨⟨tmst, .error .sendFail⟩⟩ = .error .sendFail) := by
  refine ⟨fun _ _ _ _ _ _ _ _ _ _ => rfl, fun _ _ _ _ _ _ _ _ _ _ => rfl, rfl,
    fun _ => rfl, fun _ _ => rfl, fun _ => rfl, fun _ => rfl, fun _ => rfl,
    fun _ => rfl, fun _ => rfl, fun _ => rfl, fun _ => rfl, fun _ => rfl,
    fun _ => rfl⟩

/-- C5: the `Tmst` deserializer accepts exactly a `u64` integer strictly
below `2 ^ 32` (numeric timestamp) or the string `"immediate"`; every other
string, larger or negative integer, non-integer number, and other JSON
value is rejected. -/
theorem c5_tmst_deserialize_characterization (v : JsonValue) (t : Tmst) :
    Tmst.deserialize v = .ok t ↔
      ((v = .str "immediate" ∧ t = .immediate)
        ∨ ∃ n, n < 2 ^ 32 ∧ v = .num (.posInt n) ∧ t = .tmst n) := by
  constructor
  · intro h
    cases v with
    | str s =>
      by_cases hs : s = "immediate"
      · subst hs
        rw [show Tmst.deserialize (.str "immediate") = .ok .immediate from rfl] at h
        exact Or.inl ⟨rfl, (Except.ok.inj h).symm⟩
      · simp [Tmst.deserialize, hs] at h
    | num n =>
      cases n with
      | posInt m =>
        simp only [Tmst.deserialize, JsonNumber.as_u64] at h
        by_cases hm : m < 2 ^ 32
        · rw [if_pos (by omega)] at h
          exact Or.inr ⟨m, hm, rfl, (Except.ok.inj h).symm⟩
        · rw [if_neg (by omega)] at h
          exact absurd h (by simp)
      | negInt i => simp [Tmst.deserialize, JsonNumber.as_u64] at h
      | float q => simp [Tmst.deserialize, JsonNumber.as_u64] at h
    | null => simp [Tmst.deserialize] at h
    | bool b => simp [Tmst.deserialize] at h
    | arr xs => simp [Tmst.deserialize] at h
    | obj fields => simp [Tmst.deserialize] at h
  · rintro (⟨rfl, rfl⟩ | ⟨n, hn, rfl, rfl⟩)
    · rfl
    · simp only [Tmst.deserialize, JsonNumber.as_u64]
      rw [if_pos (by omega)]

/-- The `channel_rssi` fold never goes below its accumulator. -/
theorem rssicFoldLeLeft (l : List RSig) (a : Int) :
    a ≤ l.foldl (fun mx x => max mx x.rssic) a := by
  induction l generalizing a with
  | nil => exact le_refl a
  | cons y ys ih => exact le_trans (le_max_left a y.rssic) (ih (max a y.rssic))

/-- The `channel_rssi` fold dominates every `rssic` in the list. -/
theorem rssicFoldMemLe (l : List RSig) (x : RSig) (hx : x ∈ l) :
    ∀ a : Int, x.rssic ≤ l.foldl (fun mx y => max mx y.rssic) a := by
  induction hx with
  | head ys => exact fun a => le_trans (le_max_right a x.rssic) (rssicFoldLeLeft ys _)
  | tail y hmem ih => exact fun a => ih _

/-- The `channel_rssi` fold returns its accumulator or an attained `rssic`. -/
theorem rssicFoldMem (l : List RSig) : ∀ a : Int,
    l.foldl (fun mx y => max mx y.rssic) a = a
    ∨ ∃ x ∈ l, l.foldl (fun mx y => max mx y.rssic) a = x.rssic := by
  induction l with
  | nil => exact fun a => Or.inl rfl
  | cons y ys ih =>
    intro a
    rcases ih (max a y.rssic) with h | ⟨x, hx, h⟩
    · rcases max_choice a y.rssic with hm | hm
      · exact Or.inl (by rw [List.foldl_cons, h, hm])
      · exact Or.inr ⟨y, List.mem_cons_self y ys, by rw [List.foldl_cons, h, hm]⟩
    · exact Or.inr ⟨x, List.mem_cons_of_mem y hx, by rw [List.foldl_cons, h]⟩

/-- The `snr` fold returns its accumulator or an attained `lsnr`. -/
theorem lsnrFoldMem (l : List RSig) : ∀ a : ℚ,
    l.foldl (fun mx x => if truncQ mx < truncQ x.lsnr then x.lsnr else mx) a = a
    ∨ ∃ x ∈ l,
        l.foldl (fun mx x => if truncQ mx < truncQ x.lsnr then x.lsnr else mx) a
          = x.lsnr := by
  induction l with
  | nil => exact fun a => Or.inl rfl
  | cons y ys ih =>
    intro a
    by_cases hy : truncQ a < truncQ y.lsnr
    · rcases ih y.lsnr with h | ⟨x, hx, h⟩
      · exact Or.inr ⟨y, List.mem_cons_self y ys,
          by rw [List.foldl_cons, if_pos hy, h]⟩
      · exact Or.inr ⟨x, List.mem_cons_of_mem y hx,
          by rw [List.foldl_cons, if_pos hy, h]⟩
    · rcases ih a with h | ⟨x, hx, h⟩
      · exact Or.inl (by rw [List.foldl_cons, if_neg hy, h])
      · exact Or.inr ⟨x, List.mem_cons_of_mem y hx,
          by rw [List.foldl_cons, if_neg hy, h]⟩

/-- The integer truncation of the `snr` fold equals the max-fold of the
integer truncations. -/
theorem lsnrFoldTrunc (l : List RSig) : ∀ a : ℚ,
    truncQ (l.foldl (fun mx x => if truncQ mx < truncQ x.lsnr then x.lsnr else mx) a)
      = l.foldl (fun m x => max m (truncQ x.lsnr)) (truncQ a) := by
  induction l with
  | nil => exact fun a => rfl
  | cons y ys ih =>
    intro a
    rw [List.foldl_cons, List.foldl_cons]
    by_cases hy : truncQ a < truncQ y.lsnr
    · rw [if_pos hy, ih, max_eq_right (le_of_lt hy)]
    · rw [if_neg hy, ih, max_eq_left (not_lt.mp hy)]

/-- C6 counterexample: for the V2 rxpk with antenna lsnr values 2.1 and
2.9, `snr()` returns 2.1, strictly below the attained lsnr 2.9 of the
second antenna record — so `snr()` does not return the maximum lsnr across
the antenna records (their integer truncations tie at 2, and the fold keeps
the earlier value). -/
theorem c6_counterexample :
    (RxPk.v2 pkV2).snr = 21/10
  ∧ rsigB ∈ pkV2.rsig
  ∧ rsigB.lsnr = 29/10
  ∧ (RxPk.v2 pkV2).snr < rsigB.lsnr := by
  have h1 : truncQ (-150 : ℚ) = -150 := by
    simp only [truncQ]
    rw [if_neg (by norm_num), show ((-150 : ℚ)) = ((-150 : Int) : ℚ) by norm_num,
      Int.ceil_intCast]
  have h2 : truncQ (21/10 : ℚ) = 2 := by norm_num [truncQ]
  have h3 : truncQ (29/10 : ℚ) = 2 := by norm_num [truncQ]
  have hA : truncQ (-150 : ℚ) < truncQ ((21 : ℚ)/10) := by rw [h1, h2]; norm_num
  have hB : ¬ truncQ ((21 : ℚ)/10) < truncQ ((29 : ℚ)/10) := by rw [h2, h3]; simp
  have hsnr : (RxPk.v2 pkV2).snr = 21/10 := by
    show List.foldl (fun mx x => if truncQ mx < truncQ x.lsnr then x.lsnr else mx)
      (-150) [rsigA, rsigB] = 21/10
    rw [List.foldl_cons, List.foldl_cons, List.foldl_nil]
    simp only [rsigA, rsigB]
    rw [if_pos hA, if_neg hB]
  refine ⟨hsnr, by simp [pkV2], rfl, ?_⟩
  rw [hsnr]
  show (21/10 : ℚ) < 29/10
  norm_num

/-- C6 amended: for every V2 rxpk, `channel_rssi()` returns the maximum of
`-150` and the `rssic` values (it is `-150` or an attained `rssic`, bounds
every `rssic`, and is at least `-150`); `snr()` returns `-150` or one of
the `lsnr` values, and its integer truncation equals the maximum of `-150`
and the integer truncations of the `lsnr` values — it need not be the
maximum `lsnr` itself when several antennas share an integer part. -/
theorem c6_amended (pk : RxPkV2) :
    ((-150 : Int) ≤ (RxPk.v2 pk).channel_rssi
      ∧ (∀ x ∈ pk.rsig, x.rssic ≤ (RxPk.v2 pk).channel_rssi)
      ∧ ((RxPk.v2 pk).channel_rssi = -150
          ∨ ∃ x ∈ pk.rsig, (RxPk.v2 pk).channel_rssi = x.rssic))
  ∧ (((RxPk.v2 pk).snr = -150 ∨ ∃ x ∈ pk.rsig, (RxPk.v2 pk).snr = x.lsnr)
      ∧ truncQ ((RxPk.v2 pk).snr)
          = pk.rsig.foldl (fun m x => max m (truncQ x.lsnr)) (-150)) := by
  refine ⟨⟨rssicFoldLeLeft pk.rsig (-150),
           fun x hx => rssicFoldMemLe pk.rsig x hx (-150),
           rssicFoldMem pk.rsig (-150)⟩,
          ⟨lsnrFoldMem pk.rsig (-150), ?_⟩⟩
  have h := lsnrFoldTrunc pk.rsig (-150)
  have h150 : truncQ (-150 : ℚ) = (-150 : Int) := by decide
  rw [h150] at h
  exact h

/-- C6 amended witness: at the concrete V2 rxpk, the second antenna's
`rssic` is bounded by `channel_rssi()`. -/
theorem c6_amended_witness :
    rsigB.rssic ≤ (RxPk.v2 pkV2).channel_rssi :=
  (c6_amended pkV2).1.2.1 rsigB (by simp [pkV2])

/-- Looking up a freshly inserted key finds the inserted entry. -/
theorem lookupInsertClient (l : List (MacAddress × Client)) (mac : MacAddress)
    (c : Client) : lookupClient (insertClient l mac c) mac = some c := by
  induction l with
  | nil => simp [insertClient, lookupClient]
  | cons kv rest ih =>
    obtain ⟨k, v⟩ := kv
    by_cases hk : k = mac
    · simp [insertClient, lookupClient, hk]
    · simp [insertClient, lookupClient, hk, ih]

/-- Every branch of the `Client` internal event installs an entry whose
`last_seen` is the current instant and whose addr is the source addr. -/
theorem clientStepSetsNow (now : Nat) (st : InternalState) (mac : MacAddress)
    (addr : SocketAddr) :
    ∃ evs, internalStep now st (.client mac addr)
      = .ok ({ st with clients := insertClient st.clients mac ⟨addr, now⟩ }, evs, []) := by
  cases hcl : lookupClient st.clients mac with
  | none =>
    exact ⟨[.newClient mac addr], by simp [internalStep, hcl, Client.new]⟩
  | some c =>
    by_cases haddr : c.addr = addr
    · exact ⟨[], by simp [internalStep, hcl, haddr, Client.seen]⟩
    · exact ⟨[.updateClient mac addr],
        by simp [internalStep, hcl, haddr, Client.update_addr]⟩

/-- If each event of a list steps successfully without touching the clients
table, the whole run leaves the clients table unchanged. -/
theorem internalStepsClientsInvariant (now : Nat) (evs : List InternalEvent)
    (hp : ∀ e ∈ evs, ∀ st : InternalState, ∃ st2 evs2 effs2,
      internalStep now st e = .ok (st2, evs2, effs2) ∧ st2.clients = st.clients) :
    ∀ st st' o1 o2, internalSteps now st evs = .ok (st', o1, o2) →
      st'.clients = st.clients := by
  induction evs with
  | nil =>
    intro st st' o1 o2 h
    simp only [internalSteps] at h
    cases h
    rfl
  | cons e rest ih =>
    intro st st' o1 o2 h
    obtain ⟨st2, evs2, effs2, hr, hrc⟩ := hp e (List.mem_cons_self e rest) st
    simp only [internalSteps] at h
    rw [hr] at h
    dsimp only at h
    cases hrest : internalSteps now st2 rest with
    | error er =>
      rw [hrest] at h
      simp at h
    | ok r3 =>
      obtain ⟨st3, o3, e3⟩ := r3
      rw [hrest] at h
      dsimp only at h
      simp only [Except.ok.injEq, Prod.mk.injEq] at h
      obtain ⟨hst, -, -⟩ := h
      exact hst ▸ ((ih (fun e2 he2 => hp e2 (List.mem_cons_of_mem _ he2)) st2 st3 o3 e3
        hrest).trans hrc)

/-- Every internal event emitted by `UdpRx` for a PushData uplink steps
successfully and leaves the clients table unchanged. -/
theorem pushDataEventsPreserve (now : Nat) (p : PushDataPacket) (src : SocketAddr) :
    ∀ e ∈ udpRxEvents (.pushData p) src, ∀ st : InternalState, ∃ st2 evs2 effs2,
      internalStep now st e = .ok (st2, evs2, effs2) ∧ st2.clients = st.clients := by
  intro e he st
  have hshape : (∃ r m, e = InternalEvent.packetReceived r m)
      ∨ (∃ s m, e = InternalEvent.statReceived s m)
      ∨ (∃ pk a, e = InternalEvent.packetBySocket pk a) := by
    simp only [udpRxEvents, List.mem_append] at he
    rcases he with (ha | hb) | hc
    · cases hrx : p.data.rxpk with
      | none => rw [hrx] at ha; simp at ha
      | some l =>
        rw [hrx] at ha
        simp only [List.mem_map] at ha
        obtain ⟨pkt, _, rfl⟩ := ha
        exact Or.inl ⟨pkt, _, rfl⟩
    · cases hst : p.data.stat with
      | none => rw [hst] at hb; simp at hb
      | some s =>
        rw [hst] at hb
        simp only [List.mem_singleton] at hb
        subst hb
        exact Or.inr (Or.inl ⟨s, _, rfl⟩)
    · simp only [List.mem_singleton] at hc
      subst hc
      exact Or.inr (Or.inr ⟨_, _, rfl⟩)
  rcases hshape with ⟨r, m, rfl⟩ | ⟨s, m, rfl⟩ | ⟨pk, a, rfl⟩
  · exact ⟨st, _, _, rfl, rfl⟩
  · exact ⟨st, _, _, rfl, rfl⟩
  · exact ⟨st, _, _, rfl, rfl⟩

/-- The single internal event emitted by `UdpRx` for a TxAck uplink steps
successfully and leaves the clients table unchanged. -/
theorem txAckEventsPreserve (now : Nat) (t : TxAckPacket) (src : SocketAddr) :
    ∀ e ∈ udpRxEvents (.txAck t) src, ∀ st : InternalState, ∃ st2 evs2 effs2,
      internalStep now st e = .ok (st2, evs2, effs2) ∧ st2.clients = st.clients := by
  intro e he st
  simp only [udpRxEvents, List.mem_singleton] at he
  subst he
  cases htok : lookupToken st.downlink_senders t.random_token with
  | none => exact ⟨st, [], [], by simp [internalStep, htok], rfl⟩
  | some s =>
    refine ⟨{ st with downlink_senders := removeToken st.downlink_senders t.random_token },
      [], [.fulfil s t], ?_, rfl⟩
    simp [internalStep, htok]

/-- C7 counterexample: a PushData uplink from a known gateway mac (entry
`last_seen = 0`, processed at instant 5) leaves the connection table
untouched: `last_seen` stays 0 instead of being refreshed to 5 — only
PullData refreshes it.  The same holds for TxAck, whose only internal event
never touches the clients table. -/
theorem c7_counterexample :
    processUplink 5 ⟨[(macA, ⟨7, 0⟩)], [], some 60⟩
        (.pushData ⟨1, macA, ⟨Option.none, Option.none⟩⟩) 7
      = .ok (⟨[(macA, ⟨7, 0⟩)], [], some 60⟩, [],
             [.sendBySocket (.down (.pushAck ⟨1⟩)) 7])
  ∧ (lookupClient [(macA, ⟨7, 0⟩)] macA).map Client.last_seen = some 0
  ∧ (0 : Nat) ≠ 5 := by
  refine ⟨rfl, rfl, by decide⟩

/-- C7 amended: `last_seen` is refreshed (set to the current instant) on
every PullData received from a mac, via the `Client` internal event; a
PushData or TxAck uplink leaves the connection table unchanged, so those
uplinks do not refresh `last_seen`. -/
theorem c7_pulldata_refreshes_last_seen (now : Nat) (st : InternalState) :
    (∀ pd src st' evs effs,
        processUplink now st (.pullData pd) src = .ok (st', evs, effs) →
        (lookupClient st'.clients pd.gateway_mac).map Client.last_seen = some now)
  ∧ (∀ p src st' evs effs,
        processUplink now st (.pushData p) src = .ok (st', evs, effs) →
        st'.clients = st.clients)
  ∧ (∀ t src st' evs effs,
        processUplink now st (.txAck t) src = .ok (st', evs, effs) →
        st'.clients = st.clients) := by
  refine ⟨?_, ?_, ?_⟩
  · intro pd src st' evs effs hrun
    obtain ⟨evs1, hstep⟩ := clientStepSetsNow now st pd.gateway_mac src
    simp only [processUplink, udpRxEvents, internalSteps] at hrun
    rw [hstep] at hrun
    simp only [internalStep, Except.ok.injEq, Prod.mk.injEq] at hrun
    obtain ⟨rfl, -, -⟩ := hrun
    simp [lookupInsertClient]
  · intro p src st' evs effs hrun
    exact internalStepsClientsInvariant now _ (pushDataEventsPreserve now p src)
      st st' evs effs hrun
  · intro t src st' evs effs hrun
    exact internalStepsClientsInvariant now _ (txAckEventsPreserve now t src)
      st st' evs effs hrun

/-- C7 amended witness: a PullData from `macA` processed at instant 3 on
the empty table leaves `last_seen = 3` for `macA`. -/
theorem c7_pulldata_refreshes_last_seen_witness :
    (lookupClient [(macA, ⟨7, 3⟩)] macA).map Client.last_seen = some 3 :=
  (c7_pulldata_refreshes_last_seen 3 stEmpty).1 ⟨1, macA⟩ 7
    ⟨[(macA, ⟨7, 3⟩)], [], some 60⟩ [.newClient macA 7]
    [.sendBySocket (.down (.pullAck ⟨1⟩)) 7] rfl

/-- C9: handling of a `Client(mac, src)` event.  No entry: insert with the
current instant and emit exactly one `NewClient`.  Entry with a different
addr: replace addr (the table then maps mac to the new addr, `last_seen`
refreshed) and emit exactly one `UpdateClient`.  Addr unchanged: refresh
`last_seen` only, no event. -/
theorem c9_client_event_table_update (now : Nat) (st : InternalState)
    (mac : MacAddress) (addr : SocketAddr) :
    (lookupClient st.clients mac = Option.none →
      internalStep now st (.client mac addr)
        = .ok ({ st with clients := insertClient st.clients mac ⟨addr, now⟩ },
               [.newClient mac addr], [])
      ∧ lookupClient (insertClient st.clients mac ⟨addr, now⟩) mac = some ⟨addr, now⟩)
  ∧ (∀ c, lookupClient st.clients mac = some c → c.addr ≠ addr →
      internalStep now st (.client mac addr)
        = .ok ({ st with clients := insertClient st.clients mac ⟨addr, now⟩ },
               [.updateClient mac addr], [])
      ∧ lookupClient (insertClient st.clients mac ⟨addr, now⟩) mac = some ⟨addr, now⟩)
  ∧ (∀ c, lookupClient st.clients mac = some c → c.addr = addr →
      internalStep now st (.client mac addr)
        = .ok ({ st with clients := insertClient st.clients mac ⟨addr, now⟩ }, [], [])) := by
  refine ⟨fun hnone => ?_, fun c hc hne => ?_, fun c hc heq => ?_⟩
  · exact ⟨by simp [internalStep, hnone, Client.new], lookupInsertClient _ _ _⟩
  · exact ⟨by simp [internalStep, hc, hne, Client.update_addr], lookupInsertClient _ _ _⟩
  · simp [internalStep, hc, heq, Client.seen]

/-- C9 witness: on a table mapping `macA` to addr 7 (last seen 0), a
`Client(macA, 9)` event at instant 4 replaces the addr, refreshes
`last_seen`, and emits exactly one `UpdateClient`. -/
theorem c9_client_event_table_update_witness :
    internalStep 4 ⟨[(macA, ⟨7, 0⟩)], [], some 60⟩ (.client macA 9)
      = .ok (⟨[(macA, ⟨9, 4⟩)], [], some 60⟩, [.updateClient macA 9], [])
  ∧ lookupClient [(macA, ⟨9, 4⟩)] macA = some ⟨9, 4⟩ :=
  (c9_client_event_table_update 4 ⟨[(macA, ⟨7, 0⟩)], [], some 60⟩ macA 9).2.1
    ⟨7, 0⟩ rfl (by decide)

/-- C8 counterexample: dispatching a `Downlink` handle on which no packet
has been set does not materialize a PullResp and proceed — it fails with
`DispatchWithNoSendPacket`. -/
theorem c8_counterexample :
    (Downlink.dispatch ⟨macA, Option.none⟩ Option.none 0).isOk = false
  ∧ Downlink.dispatch ⟨macA, Option.none⟩ Option.none 0
      = .error .dispatchWithNoSendPacket := by
  refine ⟨rfl, rfl⟩

/-- C8 amended: with no packet set, `dispatch` (with or without a timeout)
returns `DispatchWithNoSendPacket`; the PullResp packet is only
materialized beforehand by `set_packet`/`prepare_downlink` (which stamp the
freshly generated token), and when it is set, `dispatch` proceeds by
emitting the `Downlink` internal event carrying it. -/
theorem c8_dispatch_requires_packet (d : Downlink) (t : Option Nat)
    (ackSender : OneshotId) :
    (d.packet = Option.none →
      Downlink.dispatch d t ackSender = .error .dispatchWithNoSendPacket)
  ∧ (∀ p, d.packet = some p →
      Downlink.dispatch d t ackSender = .ok (.downlink p d.mac ackSender))
  ∧ (∀ tok txpk, (prepareDownlink tok (some txpk) d.mac).packet
      = some ⟨tok, ⟨txpk⟩⟩)
  ∧ (∀ tok txpk, (d.set_packet tok txpk).packet = some ⟨tok, ⟨txpk⟩⟩) := by
  refine ⟨fun h => ?_, fun p h => ?_, fun tok txpk => rfl, fun tok txpk => rfl⟩
  · cases t <;> simp [Downlink.dispatch, Downlink.just_dispatch, h]
  · cases t <;> simp [Downlink.dispatch, Downlink.just_dispatch, h]

/-- C8 amended witness: a handle prepared with no txpk fails dispatch with
`DispatchWithNoSendPacket`. -/
theorem c8_dispatch_requires_packet_witness :
    Downlink.dispatch ⟨macB, Option.none⟩ (some 5) 1
      = .error .dispatchWithNoSendPacket :=
  (c8_dispatch_requires_packet ⟨macB, Option.none⟩ (some 5) 1).1 rfl

/-- C10 counterexample: the client writer does not stamp a fresh random
token onto a drained TxAck frame: stamping a TxAck carrying token `0x1234`
with fresh token 5 leaves the token at `0x1234` (the mac is stamped). -/
theorem c10_counterexample :
    Up.tokenOf (txStampUplink macA 5 (.txAck ⟨0x1234, macB, TxAckData.default⟩))
      = 0x1234
  ∧ (0x1234 : Nat) ≠ 5
  ∧ Up.macOf (txStampUplink macA 5 (.txAck ⟨0x1234, macB, TxAckData.default⟩))
      = macA := by
  refine ⟨rfl, by decide, rfl⟩

/-- C10 amended: the writer stamps the configured gateway mac on every
drained uplink frame, and a fresh random token on PushData and PullData;
a TxAck frame keeps its existing token (the token that correlates it with
the PullResp it acknowledges). -/
theorem c10_writer_stamping (mac : MacAddress) (freshToken : Nat) (up : Up) :
    Up.macOf (txStampUplink mac freshToken up) = mac
  ∧ Up.tokenOf (txStampUplink mac freshToken up)
      = (match up with
         | .txAck p => p.random_token
         | _ => freshToken) := by
  cases up <;>
    simp [txStampUplink, Up.set_gateway_mac, Up.macOf, Up.tokenOf]

end SemtechUdp
